import Mathlib

/-!
Shallow embedding of the GBC raytracer core (`src/raytracer.c`, `src/raytracer.h`)
and proofs of the specification's testable properties.

All C arithmetic is modelled over `Int`:
  - `i16` is the `(int16_t)` cast (two's-complement wrap to [-32768, 32767]);
  - `u8` is the `(uint8_t)` cast (wrap to [0, 255]);
  - `sar x n` is the C arithmetic right shift `x >> n` on signed values
    (floor division by `2^n`);
  - `Int.tdiv` is C signed division (truncation toward zero).
Pixel coordinates, colors and LUT indices are `Nat`.
-/

/-- The C `(int16_t)` cast: two's-complement wrap into [-32768, 32767]. -/
def i16 (x : Int) : Int := Int.emod (x + 32768) 65536 - 32768

/-- The C `(uint8_t)` cast: wrap into [0, 255]. -/
def u8 (x : Int) : Int := Int.emod x 256

/-- C arithmetic right shift `x >> n` of a signed value: floor division by `2^n`. -/
def sar (x : Int) (n : Nat) : Int := Int.fdiv x (2 ^ n)

/-! ### Scene constants (raytracer.h) -/

def FX8_SHIFT : Nat := 8
def FX8_ONE : Int := 256
def RENDER_WIDTH : Nat := 96
def RENDER_HEIGHT : Nat := 96
def RENDER_TILES_X : Nat := 12
def RENDER_TILES_Y : Nat := 12
def SPHERE_CX : Int := 0
def SPHERE_CY : Int := 2
def SPHERE_CZ : Int := 6
def SPHERE_R_SQ : Int := 4
def CAM_Y : Int := 2
def LIGHT_X : Int := -128
def LIGHT_Y : Int := 179
def LIGHT_Z : Int := 128
def COLOR_SHADOW : Nat := 0
def COLOR_SPHERE : Nat := 1
def COLOR_GROUND : Nat := 2
def COLOR_SKY : Nat := 3
def LUT_MIN_VAL : Int := 256
def LUT_MAX_VAL : Int := 768
def LUT_SHIFT : Nat := 3
def LUT_SIZE : Nat := 64
def SHADOW_LUT_SIZE : Nat := 128
def SHADOW_LUT_SHIFT : Nat := 3

/-! ### init_luts (raytracer.c lines 110-127) -/

/-- `oc_dot_d_constant = (int16_t)(((int32_t)oc_z_fp * dz_fp) >> FX8_SHIFT)`
with `oc_z_fp = SPHERE_CZ << FX8_SHIFT` and `dz_fp = FX8_ONE`. -/
def oc_dot_d_constant : Int := i16 (sar ((SPHERE_CZ * 256) * FX8_ONE) FX8_SHIFT)

/-- The `d_dot_d` bucket-center value used when building LUT entry `i`:
`LUT_MIN_VAL + (i << LUT_SHIFT) + (1 << (LUT_SHIFT - 1))`. -/
def lut_d_dot_d (i : Nat) : Int := LUT_MIN_VAL + (i : Int) * 8 + 4

/-- `lut_t_hit[i] = (int16_t)(((int32_t)oc_dot_d_constant << FX8_SHIFT) / d_dot_d)`. -/
def lut_t_hit (i : Nat) : Int := i16 (Int.tdiv (oc_dot_d_constant * 256) (lut_d_dot_d i))

/-- `lut_proj_sq[i] = (int16_t)(((int32_t)oc_dot_d_constant * oc_dot_d_constant) / d_dot_d)`. -/
def lut_proj_sq (i : Nat) : Int :=
  i16 (Int.tdiv (oc_dot_d_constant * oc_dot_d_constant) (lut_d_dot_d i))

/-! ### init_shadow_lut (raytracer.c lines 129-153) -/

/-- `shadow_radius_sq = (int16_t)(SPHERE_R_SQ << FX8_SHIFT)` (= 1024). -/
def shadow_radius_sq : Int := i16 (SPHERE_R_SQ * 256)

/-- `umbra_radius_sq = shadow_radius_sq >> 2` (= 256). -/
def umbra_radius_sq : Int := sar shadow_radius_sq 2

/-- `penumbra_range = shadow_radius_sq - umbra_radius_sq` (= 768). -/
def penumbra_range : Int := shadow_radius_sq - umbra_radius_sq

/-- Entry `i` of the 128-entry shadow-brightness LUT built by `init_shadow_lut`. -/
def shadow_brightness_lut (i : Nat) : Int :=
  let dist_sq : Int := i16 ((i : Int) * 8)
  if dist_sq ≥ shadow_radius_sq then 255
  else if dist_sq ≤ umbra_radius_sq then 0
  else u8 (Int.tdiv ((dist_sq - umbra_radius_sq) * 256) penumbra_range)

/-! ### init_dx_dy_arrays (raytracer.c lines 155-176) -/

/-- `dx_fp_array[x] = ((int16_t)x - half_w) * 5` with `half_w = 48`. -/
def dx_fp_array (x : Nat) : Int := i16 (((x : Int) - 48) * 5)

/-- `dx_sq_array[x] = (int32_t)dx * dx`. -/
def dx_sq_array (x : Nat) : Int := dx_fp_array x * dx_fp_array x

/-- `dy_fp_array[y] = (half_h - (int16_t)y) * 5` with `half_h = 48`. -/
def dy_fp_array (y : Nat) : Int := i16 ((48 - (y : Int)) * 5)

/-- `dy_sq_array[y] = (int32_t)dy * dy`. -/
def dy_sq_array (y : Nat) : Int := dy_fp_array y * dy_fp_array y

/-- `dz_sq_constant = (int32_t)dz_fp * dz_fp` with `dz_fp = FX8_ONE`. -/
def dz_sq_constant : Int := FX8_ONE * FX8_ONE

/-! ### init_ground_scanlines (raytracer.c lines 178-206)

The ground tables are pure functions of the row's `dy_fp` value, so they are
modelled as functions of `dy` and then instantiated with `dy_fp_array`. -/

/-- `t_ground = (int16_t)(((int32_t)(-CAM_Y) << (FX8_SHIFT + FX8_SHIFT)) / dy_fp)`. -/
def t_ground_of_dy (dy : Int) : Int := i16 (Int.tdiv (-CAM_Y * 65536) dy)

/-- The acceptance test of `init_ground_scanlines`: steep enough ray
(`dy_fp < -16`) and plausible parameter (`16 < t_ground < 2000`). -/
def ground_ok (dy : Int) : Prop :=
  dy < -16 ∧ 16 < t_ground_of_dy dy ∧ t_ground_of_dy dy < 2000

instance (dy : Int) : Decidable (ground_ok dy) := by
  unfold ground_ok; infer_instance

/-- `scanline_hit_ground[py]` as a function of the row's `dy_fp`. -/
def hit_ground_of_dy (dy : Int) : Nat := if ground_ok dy then 1 else 0

/-- `scanline_t_ground[py]` as a function of the row's `dy_fp`. -/
def t_ground_entry_of_dy (dy : Int) : Int := if ground_ok dy then t_ground_of_dy dy else 0

/-- `scanline_ground_z[py] = (int16_t)(((int32_t)dz_fp * t_ground) >> FX8_SHIFT)`
as a function of the row's `dy_fp`. -/
def ground_z_of_dy (dy : Int) : Int :=
  if ground_ok dy then i16 (sar (FX8_ONE * t_ground_of_dy dy) FX8_SHIFT) else 0

/-- `scanline_hit_ground[py]` after `init_ground_scanlines`. -/
def scanline_hit_ground (py : Nat) : Nat := hit_ground_of_dy (dy_fp_array py)

/-- `scanline_t_ground[py]` after `init_ground_scanlines`. -/
def scanline_t_ground (py : Nat) : Int := t_ground_entry_of_dy (dy_fp_array py)

/-- `scanline_ground_z[py]` after `init_ground_scanlines`. -/
def scanline_ground_z (py : Nat) : Int := ground_z_of_dy (dy_fp_array py)

/-! ### raytracer_set_view (raytracer.c lines 224-250)

The view id selects the light signs and the shadow-center constants.
`VIEW_FRONT = 0`; anything else takes the back-view branch. -/

/-- `light_dir_x` after `raytracer_set_view(v)`. -/
def light_dir_x (v : Nat) : Int := if v = 0 then -1 else 1

/-- `light_dir_z` after `raytracer_set_view(v)` (both branches store 1). -/
def light_dir_z (_v : Nat) : Int := 1

/-- `t_shadow = ((int32_t)SPHERE_CY << 16) / LIGHT_Y`. -/
def t_shadow : Int := Int.tdiv (SPHERE_CY * 65536) LIGHT_Y

/-- `shadow_center_x_const` after `raytracer_set_view(v)`. -/
def shadow_center_x_const (v : Nat) : Int :=
  i16 (SPHERE_CX * 256 + sar ((-light_dir_x v * LIGHT_X) * t_shadow) FX8_SHIFT)

/-- `shadow_center_z_const` after `raytracer_set_view(v)`. -/
def shadow_center_z_const (v : Nat) : Int :=
  i16 (SPHERE_CZ * 256 + sar ((-light_dir_z v * LIGHT_Z) * t_shadow) FX8_SHIFT)

/-- `scanline_shadow_dz_sq[py]` after `init_shadow_scanlines` under view `v`
(raytracer.c lines 208-218). -/
def scanline_shadow_dz_sq (v py : Nat) : Int :=
  if scanline_hit_ground py ≠ 0 then
    sar ((scanline_ground_z py - shadow_center_z_const v) *
         (scanline_ground_z py - shadow_center_z_const v)) FX8_SHIFT
  else 0

/-! ### trace_ray (raytracer.c lines 256-356) -/

/-- `d_dot_d = (int16_t)((dx_sq_array[px] + dy_sq_array[py] + dz_sq_constant) >> FX8_SHIFT)`. -/
def d_dot_d_raw (px py : Nat) : Int :=
  i16 (sar (dx_sq_array px + dy_sq_array py + dz_sq_constant) FX8_SHIFT)

/-- The clamp of `d_dot_d` into `[LUT_MIN_VAL, LUT_MAX_VAL]` (lines 266-267). -/
def d_dot_d_clamped (d : Int) : Int :=
  if d < LUT_MIN_VAL then LUT_MIN_VAL else if d > LUT_MAX_VAL then LUT_MAX_VAL else d

/-- `lut_index = (uint8_t)((d_dot_d - LUT_MIN_VAL) >> LUT_SHIFT)`, then clamped
to `LUT_SIZE - 1` (lines 270-271). -/
def lut_index (d : Int) : Nat :=
  let idx := (sar (d_dot_d_clamped d - LUT_MIN_VAL) LUT_SHIFT).toNat
  if idx ≥ LUT_SIZE then LUT_SIZE - 1 else idx

/-- The `t_hit` looked up for a given raw `d_dot_d` value. -/
def t_hit_of (d : Int) : Int := lut_t_hit (lut_index d)

/-- The `proj_sq` looked up for a given raw `d_dot_d` value. -/
def proj_sq_of (d : Int) : Int := lut_proj_sq (lut_index d)

/-- `oc_sq = SPHERE_CZ * SPHERE_CZ`. -/
def oc_sq : Int := SPHERE_CZ * SPHERE_CZ

/-- `dist_sq_fp = (oc_sq << FX8_SHIFT) - proj_sq` for a raw `d_dot_d` value. -/
def dist_sq_fp (d : Int) : Int := oc_sq * 256 - proj_sq_of d

/-- `radius_sq_fp = SPHERE_R_SQ << FX8_SHIFT`. -/
def radius_sq_fp : Int := SPHERE_R_SQ * 256

/-- The sphere hit flag as a function of the raw `d_dot_d` value (line 283). -/
def hit_sphere_of (d : Int) : Nat :=
  if dist_sq_fp d < radius_sq_fp ∧ oc_dot_d_constant > 0 then 1 else 0

/-- `hit_sphere` computed by `trace_ray(px, py)`. -/
def hit_sphere (px py : Nat) : Nat := hit_sphere_of (d_dot_d_raw px py)

/-- `t_hit` computed by `trace_ray(px, py)`. -/
def t_hit (px py : Nat) : Int := t_hit_of (d_dot_d_raw px py)

/-- `ground_x = (int16_t)(((int32_t)dx_fp * t_ground) >> FX8_SHIFT)` when the
row hits the ground, else the initializer 0 (lines 291-296). -/
def ground_x (px py : Nat) : Int :=
  if scanline_hit_ground py ≠ 0 then
    i16 (sar (dx_fp_array px * scanline_t_ground py) FX8_SHIFT)
  else 0

/-- `shadow_dist_sq = ((shadow_dx * shadow_dx) >> FX8_SHIFT) + scanline_shadow_dz_sq[py]`
with `shadow_dx = (int32_t)ground_x - shadow_center_x_const` (lines 333-335). -/
def shadow_dist_sq (v px py : Nat) : Int :=
  sar ((ground_x px py - shadow_center_x_const v) *
       (ground_x px py - shadow_center_x_const v)) FX8_SHIFT +
  scanline_shadow_dz_sq v py

/-- `max_lut_value = (SHADOW_LUT_SIZE - 1) << SHADOW_LUT_SHIFT` (= 1016). -/
def max_lut_value : Int := 127 * 8

/-- The clamped shadow-LUT index computed from `shadow_dist_sq` (lines 342-348). -/
def shadow_lut_idx (d : Int) : Nat :=
  if d ≥ max_lut_value then SHADOW_LUT_SIZE - 1
  else if d ≤ 0 then 0
  else (sar d SHADOW_LUT_SHIFT).toNat

/-- The per-pixel shadow-brightness function: clamped lookup of a
`shadow_dist_sq` value in the shadow LUT. -/
def shadow_brightness_at (d : Int) : Int := shadow_brightness_lut (shadow_lut_idx d)

/-- Ground brightness of pixel `(px, py)` under view `v` (line 350). -/
def ground_brightness (v px py : Nat) : Int := shadow_brightness_at (shadow_dist_sq v px py)

/-- Sphere-shading brightness of pixel `(px, py)` under view `v` (lines 300-324),
before the `(uint8_t)` cast at the `dither` call. -/
def sphere_brightness (v px py : Nat) : Int :=
  let dx_fp := dx_fp_array px
  let dy_fp := dy_fp_array py
  let th := t_hit px py
  let hx := i16 (sar (dx_fp * th) FX8_SHIFT)
  let hy := i16 (CAM_Y * 256 + i16 (sar (dy_fp * th) FX8_SHIFT))
  let hz := i16 (sar (FX8_ONE * th) FX8_SHIFT)
  let nx := sar hx 1
  let ny := sar (i16 (hy - SPHERE_CY * 256)) 1
  let nz := sar (i16 (hz - SPHERE_CZ * 256)) 1
  let lx := light_dir_x v * LIGHT_X
  let ly := LIGHT_Y
  let lz := light_dir_z v * LIGHT_Z
  let dot := sar (nx * lx + ny * ly + nz * lz) FX8_SHIFT
  let b0 : Int := 50
  let b1 := if dot > 0 then i16 (b0 + sar (dot * 205) FX8_SHIFT) else b0
  if b1 > 255 then 255 else b1

/-! ### dither (raytracer.c lines 95-104) -/

/-- The 2x2 Bayer threshold matrix `{{0,128},{192,64}}`, row-then-column. -/
def bayer2x2 (r c : Nat) : Int :=
  if r = 0 then (if c = 0 then 0 else 128) else (if c = 0 then 192 else 64)

/-- `dither`: compares brightness against `bayer2x2[py & 1][px & 1]`. -/
def dither (brightness : Int) (dark_color bright_color : Nat) (px py : Nat) : Nat :=
  if brightness > bayer2x2 (py % 2) (px % 2) then bright_color else dark_color

/-! ### trace_ray assembled (raytracer.c lines 299-355) -/

/-- `trace_ray(px, py)` under view `v`: the returned 2-bit color index. -/
def trace_ray (v px py : Nat) : Nat :=
  if hit_sphere px py ≠ 0 ∧ (scanline_hit_ground py = 0 ∨ t_hit px py < scanline_t_ground py) then
    dither (u8 (sphere_brightness v px py)) COLOR_SHADOW COLOR_SPHERE px py
  else if scanline_hit_ground py ≠ 0 then
    dither (ground_brightness v px py) COLOR_SHADOW COLOR_GROUND px py
  else COLOR_SKY

/-! ### raytracer_render_row tile packing (raytracer.c lines 362-386) -/

/-- The color of tile-local pixel `(col, row)` inside tile `(tile_row, tx)`:
`trace_ray(base_px + col, base_py + row)` with `base_px = tx * 8`,
`base_py = tile_row * 8`. -/
def tile_colors (v tile_row tx row col : Nat) : Nat :=
  trace_ray v (tx * 8 + col) (tile_row * 8 + row)

/-- One iteration of the packing loop body (lines 375-379): accumulates the
low-plane and high-plane bytes over the 8 columns of one pixel row. -/
def pack_step (f : Nat → Nat) (acc : Nat × Nat) (col : Nat) : Nat × Nat :=
  ((if f col &&& 1 ≠ 0 then acc.1 ||| (1 <<< (7 - col)) else acc.1),
   (if f col &&& 2 ≠ 0 then acc.2 ||| (1 <<< (7 - col)) else acc.2))

/-- The `(low_bits, high_bits)` pair produced by the column loop for one pixel
row whose colors are `f 0, ..., f 7`. -/
def pack_planes (f : Nat → Nat) : Nat × Nat := (List.range 8).foldl (pack_step f) (0, 0)

/-- Byte `b` of the 16-byte tile written for tile `(tile_row, tx)`:
`tile_data[row * 2] = low_bits`, `tile_data[row * 2 + 1] = high_bits`
(lines 382-383). -/
def tile_data (v tile_row tx b : Nat) : Nat :=
  let p := pack_planes (tile_colors v tile_row tx (b / 2))
  if b % 2 = 0 then p.1 else p.2

/-- Unpacking a pixel's 2-bit color from the two bit-planes of a tile: bit
`7 - col` of the low-plane byte is the low bit, bit `7 - col` of the
high-plane byte is the high bit. -/
def unpack_color (low high col : Nat) : Nat :=
  (Nat.testBit low (7 - col)).toNat + 2 * (Nat.testBit high (7 - col)).toNat

/-! ### Mutable-state model for raytracer_set_view (raytracer.c lines 224-250)

`raytracer_set_view` writes the light signs and shadow-center constants and
rebuilds the per-scanline tables from the (untouched) `dy_fp_array`;
`scene_buffer` is a distinct static array it never writes. The mutable
globals it reads or writes are collected in a state record. -/

structure RTState where
  lightDirX : Int
  lightDirZ : Int
  shadowCenterX : Int
  shadowCenterZ : Int
  dyFpArr : Nat → Int
  scanDyFp : Nat → Int
  scanHitGround : Nat → Nat
  scanTGround : Nat → Int
  scanGroundZ : Nat → Int
  scanShadowDzSq : Nat → Int
  sceneBuf : Nat → Nat → Nat

/-- `raytracer_set_view(v)` as a state transformer: sets the light signs and
shadow centers from `v`, then runs `init_ground_scanlines` (reading
`dy_fp_array`) and `init_shadow_scanlines` (reading the tables and the
shadow-center constant just written). -/
def set_view (s : RTState) (v : Nat) : RTState :=
  let ldx : Int := if v = 0 then -1 else 1
  let ldz : Int := 1
  let scx := i16 (SPHERE_CX * 256 + sar ((-ldx * LIGHT_X) * t_shadow) FX8_SHIFT)
  let scz := i16 (SPHERE_CZ * 256 + sar ((-ldz * LIGHT_Z) * t_shadow) FX8_SHIFT)
  { s with
    lightDirX := ldx
    lightDirZ := ldz
    shadowCenterX := scx
    shadowCenterZ := scz
    scanDyFp := fun py => s.dyFpArr py
    scanHitGround := fun py => hit_ground_of_dy (s.dyFpArr py)
    scanTGround := fun py => t_ground_entry_of_dy (s.dyFpArr py)
    scanGroundZ := fun py => ground_z_of_dy (s.dyFpArr py)
    scanShadowDzSq := fun py =>
      if hit_ground_of_dy (s.dyFpArr py) ≠ 0 then
        sar ((ground_z_of_dy (s.dyFpArr py) - scz) * (ground_z_of_dy (s.dyFpArr py) - scz))
          FX8_SHIFT
      else 0 }

/-! ### Helper lemmas -/

/-- `dither` always returns one of its two candidate colors. -/
lemma dither_cases (b : Int) (d br px py : Nat) :
    dither b d br px py = d ∨ dither b d br px py = br := by
  unfold dither
  split_ifs with h
  · exact Or.inr rfl
  · exact Or.inl rfl

/-- The ground-hit flag is a 0/1 flag. -/
lemma scanline_hit_ground_dichotomy (py : Nat) :
    scanline_hit_ground py = 0 ∨ scanline_hit_ground py = 1 := by
  unfold scanline_hit_ground hit_ground_of_dy
  split_ifs with h
  · exact Or.inr rfl
  · exact Or.inl rfl

/-- The sphere-hit flag is a 0/1 flag. -/
lemma hit_sphere_dichotomy (px py : Nat) :
    hit_sphere px py = 0 ∨ hit_sphere px py = 1 := by
  unfold hit_sphere hit_sphere_of
  split_ifs with h
  · exact Or.inr rfl
  · exact Or.inl rfl

/-- `trace_ray` only produces the four 2-bit color indices. -/
lemma trace_ray_lt_four (v px py : Nat) : trace_ray v px py < 4 := by
  unfold trace_ray
  split_ifs with h1 h2
  · rcases dither_cases (u8 (sphere_brightness v px py)) COLOR_SHADOW COLOR_SPHERE px py with
      h | h <;> rw [h] <;> decide
  · rcases dither_cases (ground_brightness v px py) COLOR_SHADOW COLOR_GROUND px py with
      h | h <;> rw [h] <;> decide
  · decide

/-! ### C4 -/

/-- C4: `dither` is a pure function of (brightness, px mod 2, py mod 2) through
the Bayer matrix `{{0,128},{192,64}}`, and brightness 100 selects the bright
color at parities (0,0) and (1,1) and the dark color at (0,1) and (1,0). -/
theorem dither_pure_parity_pattern :
    (∀ (b : Int) (dark bright px py : Nat),
      dither b dark bright px py = dither b dark bright (px % 2) (py % 2)) ∧
    (∀ dark bright : Nat,
      dither 100 dark bright 0 0 = bright ∧ dither 100 dark bright 1 1 = bright ∧
      dither 100 dark bright 0 1 = dark ∧ dither 100 dark bright 1 0 = dark) := by
  constructor
  · intro b dark bright px py
    unfold dither
    rw [Nat.mod_mod_of_dvd px (dvd_refl 2), Nat.mod_mod_of_dvd py (dvd_refl 2)]
  · intro dark bright
    refine ⟨?_, ?_, ?_, ?_⟩ <;> · unfold dither bayer2x2; norm_num

/-! ### C8 -/

/-- C8: `raytracer_set_view` is idempotent (light signs, shadow-center
constants and all per-scanline tables after two calls with the same view
equal those after one call) and never modifies the scene buffer. -/
theorem set_view_idempotent_scene_untouched :
    ∀ (s : RTState) (v : Nat),
      set_view (set_view s v) v = set_view s v ∧ (set_view s v).sceneBuf = s.sceneBuf := by
  intro s v
  exact ⟨rfl, rfl⟩

/-! ### C6 -/

/-- C6: a row is marked as hitting the ground iff its `dy_fp` is below -16 and
the once-per-row division yields a parameter strictly between 16 and 2000; in
every other case the row's flag, `t_ground` and `ground_z` entries are 0. -/
theorem ground_scanline_classification :
    ∀ py : Nat, py < 96 →
      (scanline_hit_ground py = 1 ↔
        (dy_fp_array py < -16 ∧ 16 < t_ground_of_dy (dy_fp_array py) ∧
         t_ground_of_dy (dy_fp_array py) < 2000)) ∧
      (¬ (dy_fp_array py < -16 ∧ 16 < t_ground_of_dy (dy_fp_array py) ∧
          t_ground_of_dy (dy_fp_array py) < 2000) →
        scanline_hit_ground py = 0 ∧ scanline_t_ground py = 0 ∧ scanline_ground_z py = 0) := by
  intro py _
  unfold scanline_hit_ground scanline_t_ground scanline_ground_z
  unfold hit_ground_of_dy t_ground_entry_of_dy ground_z_of_dy
  by_cases h : ground_ok (dy_fp_array py)
  · rw [if_pos h, if_pos h, if_pos h]
    exact ⟨⟨fun _ => h, fun _ => rfl⟩, fun hn => absurd h hn⟩
  · rw [if_neg h, if_neg h, if_neg h]
    exact ⟨⟨fun h0 => absurd h0 (by norm_num), fun hc => absurd hc h⟩,
           fun _ => ⟨rfl, rfl, rfl⟩⟩

/-- Witness for C6: row 70 is classified as a ground hit, row 0 is not and has
zeroed entries. -/
theorem ground_scanline_classification_witness :
    scanline_hit_ground 70 = 1 ∧
    (scanline_hit_ground 0 = 0 ∧ scanline_t_ground 0 = 0 ∧ scanline_ground_z 0 = 0) :=
  ⟨(ground_scanline_classification 70 (by decide)).1.mpr (by decide),
   (ground_scanline_classification 0 (by decide)).2 (by decide)⟩

/-! ### C3 -/

/-- C3: the sphere-LUT lookup is invariant to clamping: any `d_dot_d` below 256
yields the same `t_hit` and `proj_sq` as exactly 256, and any `d_dot_d` above
768 yields the same as exactly 768. -/
theorem sphere_lut_lookup_clamp_invariant :
    ∀ d : Int,
      (d < 256 → t_hit_of d = t_hit_of 256 ∧ proj_sq_of d = proj_sq_of 256) ∧
      (768 < d → t_hit_of d = t_hit_of 768 ∧ proj_sq_of d = proj_sq_of 768) := by
  intro d
  constructor
  · intro hd
    have hc : d_dot_d_clamped d = d_dot_d_clamped 256 := by
      unfold d_dot_d_clamped LUT_MIN_VAL LUT_MAX_VAL
      rw [if_pos hd]
      norm_num
    have hi : lut_index d = lut_index 256 := by
      unfold lut_index
      rw [hc]
    exact ⟨by unfold t_hit_of; rw [hi], by unfold proj_sq_of; rw [hi]⟩
  · intro hd
    have hc : d_dot_d_clamped d = d_dot_d_clamped 768 := by
      unfold d_dot_d_clamped LUT_MIN_VAL LUT_MAX_VAL
      rw [if_neg (by omega), if_pos hd]
      norm_num
    have hi : lut_index d = lut_index 768 := by
      unfold lut_index
      rw [hc]
    exact ⟨by unfold t_hit_of; rw [hi], by unfold proj_sq_of; rw [hi]⟩

/-- Witness for C3: querying 100 matches querying 256, querying 1000 matches
querying 768. -/
theorem sphere_lut_lookup_clamp_invariant_witness :
    (t_hit_of 100 = t_hit_of 256 ∧ proj_sq_of 100 = proj_sq_of 256) ∧
    (t_hit_of 1000 = t_hit_of 768 ∧ proj_sq_of 1000 = proj_sq_of 768) :=
  ⟨(sphere_lut_lookup_clamp_invariant 100).1 (by decide),
   (sphere_lut_lookup_clamp_invariant 1000).2 (by decide)⟩

/-! ### C10 -/

/-- C10: the sphere-hit flag and `t_hit` depend on the pixel only through
`dx_sq_array[px] + dy_sq_array[py]`, so the rendered sphere silhouette is
radially symmetric about the screen center. -/
theorem sphere_hit_radial_symmetry :
    ∀ px1 py1 px2 py2 : Nat, px1 < 96 → py1 < 96 → px2 < 96 → py2 < 96 →
      dx_sq_array px1 + dy_sq_array py1 = dx_sq_array px2 + dy_sq_array py2 →
      hit_sphere px1 py1 = hit_sphere px2 py2 ∧ t_hit px1 py1 = t_hit px2 py2 := by
  intro px1 py1 px2 py2 _ _ _ _ h
  have hd : d_dot_d_raw px1 py1 = d_dot_d_raw px2 py2 := by
    unfold d_dot_d_raw
    rw [h]
  exact ⟨by unfold hit_sphere; rw [hd], by unfold t_hit; rw [hd]⟩

/-- Witness for C10: pixels (47,48) and (49,48) are mirror images with equal
squared ray components, so they get the same sphere-hit decision. -/
theorem sphere_hit_radial_symmetry_witness :
    hit_sphere 47 48 = hit_sphere 49 48 ∧ t_hit 47 48 = t_hit 49 48 :=
  sphere_hit_radial_symmetry 47 48 49 48 (by decide) (by decide) (by decide) (by decide)
    (by decide)

/-! ### C9 -/

/-- Upper bound for the clamped shadow-LUT index. -/
lemma shadow_lut_idx_le (d : Int) : shadow_lut_idx d ≤ 127 := by
  unfold shadow_lut_idx max_lut_value SHADOW_LUT_SIZE SHADOW_LUT_SHIFT
  split_ifs with h1 h2
  · omega
  · omega
  · have hb : sar d 3 ≤ 126 := by
      unfold sar
      rw [Int.fdiv_eq_ediv _ (by norm_num)]
      calc d / 2 ^ 3 ≤ 1015 / 2 ^ 3 := Int.ediv_le_ediv (by norm_num) (by omega)
        _ = 126 := by decide
    have h2 := Int.toNat_le_toNat hb
    omega

/-- C9: every table access of `trace_ray` is in bounds: the sphere-LUT index is
always in [0,63] and the shadow-LUT index is always in [0,127]. -/
theorem trace_ray_lut_indices_in_bounds :
    ∀ v px py : Nat, px < 96 → py < 96 →
      lut_index (d_dot_d_raw px py) < LUT_SIZE ∧
      shadow_lut_idx (shadow_dist_sq v px py) < SHADOW_LUT_SIZE := by
  intro v px py _ _
  constructor
  · dsimp only [lut_index, LUT_SIZE]
    split_ifs with h
    · omega
    · omega
  · have := shadow_lut_idx_le (shadow_dist_sq v px py)
    unfold SHADOW_LUT_SIZE
    omega

/-- Witness for C9: the indices at pixel (0,0) under the front view. -/
theorem trace_ray_lut_indices_in_bounds_witness :
    lut_index (d_dot_d_raw 0 0) < LUT_SIZE ∧
    shadow_lut_idx (shadow_dist_sq 0 0 0) < SHADOW_LUT_SIZE :=
  trace_ray_lut_indices_in_bounds 0 0 0 (by decide) (by decide)

/-! ### C2 -/

/-- C2: whenever both the sphere test and the per-row ground test succeed, the
intersection with the strictly smaller ray parameter determines the returned
color: the sphere color pair (shadow/sphere dither) when `t_hit < t_ground`,
the ground color pair (shadow/ground dither) when `t_ground < t_hit`. -/
theorem trace_ray_nearer_hit_wins :
    ∀ v px py : Nat, px < 96 → py < 96 →
      hit_sphere px py = 1 → scanline_hit_ground py = 1 →
      (t_hit px py < scanline_t_ground py →
        trace_ray v px py =
          dither (u8 (sphere_brightness v px py)) COLOR_SHADOW COLOR_SPHERE px py ∧
        (trace_ray v px py = COLOR_SHADOW ∨ trace_ray v px py = COLOR_SPHERE)) ∧
      (scanline_t_ground py < t_hit px py →
        trace_ray v px py =
          dither (ground_brightness v px py) COLOR_SHADOW COLOR_GROUND px py ∧
        (trace_ray v px py = COLOR_SHADOW ∨ trace_ray v px py = COLOR_GROUND)) := by
  intro v px py _ _ hs hg
  constructor
  · intro hlt
    unfold trace_ray
    rw [if_pos ⟨by omega, Or.inr hlt⟩]
    exact ⟨rfl, dither_cases _ _ _ _ _⟩
  · intro hgt
    unfold trace_ray
    rw [if_neg (by rintro ⟨-, h | h⟩ <;> omega), if_pos (by omega)]
    exact ⟨rfl, dither_cases _ _ _ _ _⟩

/-- Witness for C2: at pixel (48,62) both tests succeed and the sphere is the
nearer hit, so the sphere color pair is returned. -/
theorem trace_ray_nearer_hit_wins_witness :
    trace_ray 0 48 62 =
      dither (u8 (sphere_brightness 0 48 62)) COLOR_SHADOW COLOR_SPHERE 48 62 ∧
    (trace_ray 0 48 62 = COLOR_SHADOW ∨ trace_ray 0 48 62 = COLOR_SPHERE) :=
  (trace_ray_nearer_hit_wins 0 48 62 (by decide) (by decide) (by decide) (by decide)).1
    (by decide)

/-! ### C7 -/

/-- C7: `trace_ray` returns the sky color exactly when both hit tests are
negative: no sky pixel has a positive sphere or ground hit. -/
theorem sky_iff_both_miss :
    ∀ v px py : Nat, px < 96 → py < 96 →
      (trace_ray v px py = COLOR_SKY ↔
        hit_sphere px py = 0 ∧ scanline_hit_ground py = 0) := by
  intro v px py _ _
  have hs := hit_sphere_dichotomy px py
  have hg := scanline_hit_ground_dichotomy py
  unfold trace_ray
  split_ifs with h1 h2
  · constructor
    · intro hd
      exfalso
      rcases dither_cases (u8 (sphere_brightness v px py)) COLOR_SHADOW COLOR_SPHERE px py with
        h | h <;> rw [hd] at h <;> exact absurd h (by decide)
    · rintro ⟨h0, -⟩
      exact absurd h0 h1.1
  · constructor
    · intro hd
      exfalso
      rcases dither_cases (ground_brightness v px py) COLOR_SHADOW COLOR_GROUND px py with
        h | h <;> rw [hd] at h <;> exact absurd h (by decide)
    · rintro ⟨-, h0⟩
      exact absurd h0 h2
  · push_neg at h2
    constructor
    · intro _
      refine ⟨?_, h2⟩
      rcases hs with h0 | h1'
      · exact h0
      · exact absurd ⟨by omega, Or.inl h2⟩ h1
    · intro _
      rfl

/-- Witness for C7: pixel (0,0) misses both the sphere and the ground and is
classified as sky. -/
theorem sky_iff_both_miss_witness : trace_ray 0 0 0 = COLOR_SKY :=
  (sky_iff_both_miss 0 0 0 (by decide) (by decide)).mpr (by decide)

/-! ### C1

The shadow-brightness LUT only covers squared distances `0, 8, ..., 1016`, all
strictly below the shadow radius squared 1024, so its `dist_sq >= 1024` branch
never fires: the largest value the clamped lookup ever returns is entry 127,
the penumbra value `(1016 - 256) * 256 / 768 = 253`, not 255. -/

/-- Counterexample for C1 as stated: at squared distance 1024 (the shadow
radius squared) the clamped lookup returns 253, not 255. -/
theorem shadow_brightness_at_radius_ne_255 :
    shadow_brightness_at 1024 = 253 ∧ shadow_brightness_at 1024 ≠ 255 := by
  constructor <;> decide

/-- The shadow LUT entries up to the umbra bucket are all 0. -/
lemma shadow_lut_zero_below_umbra : ∀ i : Fin 33, shadow_brightness_lut i.val = 0 := by
  decide

/-- Consecutive shadow LUT entries are non-decreasing. -/
lemma shadow_lut_step_mono :
    ∀ i : Fin 127, shadow_brightness_lut i.val ≤ shadow_brightness_lut (i.val + 1) := by
  decide

/-- The shadow LUT is monotone non-decreasing on its index range. -/
lemma shadow_lut_mono :
    ∀ i j : Nat, i ≤ j → j ≤ 127 → shadow_brightness_lut i ≤ shadow_brightness_lut j := by
  intro i j hij hj
  induction j with
  | zero =>
    have : i = 0 := by omega
    rw [this]
  | succ k ih =>
    rcases Nat.lt_or_ge i (k + 1) with h | h
    · exact le_trans (ih (by omega) (by omega)) (shadow_lut_step_mono ⟨k, by omega⟩)
    · have : i = k + 1 := by omega
      rw [this]

/-- The clamped shadow-LUT index is monotone in the squared distance. -/
lemma shadow_lut_idx_mono (d1 d2 : Int) (h : d1 ≤ d2) :
    shadow_lut_idx d1 ≤ shadow_lut_idx d2 := by
  rcases le_or_lt 1016 d2 with hb | hb
  · have h127 : shadow_lut_idx d2 = 127 := by
      unfold shadow_lut_idx max_lut_value SHADOW_LUT_SIZE
      rw [if_pos (by omega)]
    rw [h127]
    exact shadow_lut_idx_le d1
  · rcases le_or_lt d1 0 with ha | ha
    · have h0 : shadow_lut_idx d1 = 0 := by
        unfold shadow_lut_idx max_lut_value SHADOW_LUT_SIZE
        rw [if_neg (by omega), if_pos ha]
      rw [h0]
      exact Nat.zero_le _
    · have e1 : shadow_lut_idx d1 = (sar d1 3).toNat := by
        unfold shadow_lut_idx max_lut_value SHADOW_LUT_SIZE SHADOW_LUT_SHIFT
        rw [if_neg (by omega), if_neg (by omega)]
      have e2 : shadow_lut_idx d2 = (sar d2 3).toNat := by
        unfold shadow_lut_idx max_lut_value SHADOW_LUT_SIZE SHADOW_LUT_SHIFT
        rw [if_neg (by omega), if_neg (by omega)]
      rw [e1, e2]
      have hm : sar d1 3 ≤ sar d2 3 := by
        unfold sar
        rw [Int.fdiv_eq_ediv _ (by norm_num), Int.fdiv_eq_ediv _ (by norm_num)]
        exact Int.ediv_le_ediv (by norm_num) h
      exact Int.toNat_le_toNat hm

/-- C1 amended: the clamped shadow-brightness lookup is monotone non-decreasing
in the squared planar distance and returns exactly 0 at and below the umbra
threshold 256; but its maximum is 253, reached at and above squared distance
1016 (in particular at and above the shadow radius squared 1024), not 255. -/
theorem shadow_brightness_monotone_umbra_max :
    (∀ d1 d2 : Int, d1 ≤ d2 → shadow_brightness_at d1 ≤ shadow_brightness_at d2) ∧
    (∀ d : Int, d ≤ 256 → shadow_brightness_at d = 0) ∧
    (∀ d : Int, 1016 ≤ d → shadow_brightness_at d = 253) := by
  refine ⟨?_, ?_, ?_⟩
  · intro d1 d2 h
    exact shadow_lut_mono _ _ (shadow_lut_idx_mono d1 d2 h) (shadow_lut_idx_le d2)
  · intro d hd
    have hidx : shadow_lut_idx d ≤ 32 := by
      unfold shadow_lut_idx max_lut_value SHADOW_LUT_SIZE SHADOW_LUT_SHIFT
      split_ifs with h1 h2
      · omega
      · omega
      · have hb : sar d 3 ≤ 32 := by
          unfold sar
          rw [Int.fdiv_eq_ediv _ (by norm_num)]
          calc d / 2 ^ 3 ≤ 256 / 2 ^ 3 := Int.ediv_le_ediv (by norm_num) hd
            _ = 32 := by decide
        have := Int.toNat_le_toNat hb
        omega
    have := shadow_lut_zero_below_umbra ⟨shadow_lut_idx d, by omega⟩
    exact this
  · intro d hd
    unfold shadow_brightness_at shadow_lut_idx max_lut_value SHADOW_LUT_SIZE
    rw [if_pos (by omega)]
    decide

/-- Witness for C1 (amended): monotone between 100 and 500, zero at 200,
253 at 2000. -/
theorem shadow_brightness_monotone_umbra_max_witness :
    shadow_brightness_at 100 ≤ shadow_brightness_at 500 ∧
    shadow_brightness_at 200 = 0 ∧ shadow_brightness_at 2000 = 253 :=
  ⟨shadow_brightness_monotone_umbra_max.1 100 500 (by decide),
   shadow_brightness_monotone_umbra_max.2.1 200 (by decide),
   shadow_brightness_monotone_umbra_max.2.2 2000 (by decide)⟩

/-! ### C5 -/

/-- Bits of the low plane accumulated by the packing loop: bit `i` of the fold
result is bit `i` of the accumulator or the low bit of some column mapped to
position `i`. -/
lemma pack_foldl_testBit_low (f : Nat → Nat) (l : List Nat) (acc : Nat × Nat) (i : Nat) :
    Nat.testBit ((l.foldl (pack_step f) acc).1) i =
      (Nat.testBit acc.1 i ||
        l.any fun col => decide (7 - col = i) && decide (f col &&& 1 ≠ 0)) := by
  induction l generalizing acc with
  | nil => simp
  | cons c t ih =>
    simp only [List.foldl_cons, List.any_cons]
    rw [ih]
    have hstep : Nat.testBit (pack_step f acc c).1 i =
        (Nat.testBit acc.1 i || (decide (7 - c = i) && decide (f c &&& 1 ≠ 0))) := by
      have hproj : (pack_step f acc c).1 =
          if f c &&& 1 ≠ 0 then acc.1 ||| (1 <<< (7 - c)) else acc.1 := rfl
      rw [hproj]
      split_ifs with h
      · rw [Nat.testBit_lor]
        have h1 : (1 <<< (7 - c) : Nat) = 2 ^ (7 - c) := by
          rw [Nat.shiftLeft_eq, one_mul]
        rw [h1, Nat.testBit_two_pow, decide_eq_true h, Bool.and_true]
      · rw [decide_eq_false h, Bool.and_false, Bool.or_false]
    rw [hstep, Bool.or_assoc]

/-- Bits of the high plane accumulated by the packing loop. -/
lemma pack_foldl_testBit_high (f : Nat → Nat) (l : List Nat) (acc : Nat × Nat) (i : Nat) :
    Nat.testBit ((l.foldl (pack_step f) acc).2) i =
      (Nat.testBit acc.2 i ||
        l.any fun col => decide (7 - col = i) && decide (f col &&& 2 ≠ 0)) := by
  induction l generalizing acc with
  | nil => simp
  | cons c t ih =>
    simp only [List.foldl_cons, List.any_cons]
    rw [ih]
    have hstep : Nat.testBit (pack_step f acc c).2 i =
        (Nat.testBit acc.2 i || (decide (7 - c = i) && decide (f c &&& 2 ≠ 0))) := by
      have hproj : (pack_step f acc c).2 =
          if f c &&& 2 ≠ 0 then acc.2 ||| (1 <<< (7 - c)) else acc.2 := rfl
      rw [hproj]
      split_ifs with h
      · rw [Nat.testBit_lor]
        have h1 : (1 <<< (7 - c) : Nat) = 2 ^ (7 - c) := by
          rw [Nat.shiftLeft_eq, one_mul]
        rw [h1, Nat.testBit_two_pow, decide_eq_true h, Bool.and_true]
      · rw [decide_eq_false h, Bool.and_false, Bool.or_false]
    rw [hstep, Bool.or_assoc]

/-- Bit `7 - c` of the packed low plane is the low bit of color `f c`. -/
lemma pack_planes_testBit_low (f : Nat → Nat) (c : Nat) (hc : c < 8) :
    Nat.testBit (pack_planes f).1 (7 - c) = decide (f c &&& 1 ≠ 0) := by
  unfold pack_planes
  rw [pack_foldl_testBit_low]
  simp only [Nat.zero_testBit, Bool.false_or]
  interval_cases c <;> simp [List.range_succ]

/-- Bit `7 - c` of the packed high plane is the high bit of color `f c`. -/
lemma pack_planes_testBit_high (f : Nat → Nat) (c : Nat) (hc : c < 8) :
    Nat.testBit (pack_planes f).2 (7 - c) = decide (f c &&& 2 ≠ 0) := by
  unfold pack_planes
  rw [pack_foldl_testBit_high]
  simp only [Nat.zero_testBit, Bool.false_or]
  interval_cases c <;> simp [List.range_succ]

/-- Unpacking the two packed planes recovers any 2-bit color row. -/
lemma unpack_pack (f : Nat → Nat) (c : Nat) (hc : c < 8) (hf : f c < 4) :
    unpack_color (pack_planes f).1 (pack_planes f).2 c = f c := by
  unfold unpack_color
  rw [pack_planes_testBit_low f c hc, pack_planes_testBit_high f c hc]
  set n := f c with hn
  interval_cases n <;> decide

/-- C5: tile packing round-trips: for every tile of the render area, every
pixel row `r` and column `c`, the color unpacked from bit `7 - c` of bytes
`2r` (low plane) and `2r + 1` (high plane) is exactly the color index
`trace_ray` produced for that pixel. -/
theorem tile_pack_roundtrip :
    ∀ v tile_row tx r c : Nat, tile_row < 12 → tx < 12 → r < 8 → c < 8 →
      unpack_color (tile_data v tile_row tx (2 * r)) (tile_data v tile_row tx (2 * r + 1)) c =
        trace_ray v (tx * 8 + c) (tile_row * 8 + r) := by
  intro v tile_row tx r c _ _ hr hc
  have hlow : tile_data v tile_row tx (2 * r) =
      (pack_planes (tile_colors v tile_row tx r)).1 := by
    unfold tile_data
    have h1 : 2 * r / 2 = r := by omega
    have h2 : 2 * r % 2 = 0 := by omega
    rw [h1, if_pos h2]
  have hhigh : tile_data v tile_row tx (2 * r + 1) =
      (pack_planes (tile_colors v tile_row tx r)).2 := by
    unfold tile_data
    have h1 : (2 * r + 1) / 2 = r := by omega
    have h2 : (2 * r + 1) % 2 = 1 := by omega
    rw [h1, if_neg (by omega)]
  rw [hlow, hhigh]
  exact unpack_pack (tile_colors v tile_row tx r) c hc (trace_ray_lt_four v _ _)

/-- Witness for C5: a concrete pixel of tile (7,5), row 6, column 2, in the
front view round-trips through the packed planes. -/
theorem tile_pack_roundtrip_witness :
    unpack_color (tile_data 0 7 5 12) (tile_data 0 7 5 13) 2 = trace_ray 0 42 62 :=
  tile_pack_roundtrip 0 7 5 6 2 (by decide) (by decide) (by decide) (by decide)

